import Mathlib

/-!
Verification of the Conversation Agent's deterministic contract layer
(`src/v2/conversation_agent/conversation_agent.py` together with its Pydantic
schemas in `schemas.py`).

The external text-understanding oracle (the LLM behind
`with_structured_output`) is modelled as an arbitrary function from the
prompt inputs the Python code supplies to a structured response of the
schema type; Pydantic's `Literal` fields are modelled by Lean inductive
types, so an oracle response is any well-typed value (responses that fail
schema parsing raise in Python and are modelled as `Option.none` where the
claims need the failure path).  The filesystem side effects (`runs/`
directories, `prd.md`, `generation_request.json`, `revision_request.json`,
`execution_plan.json`, `.current_run`) are modelled by an explicit state
record threaded through the two mode implementations.
-/

namespace ConvAgent

/-- Python values that can appear in the caller-supplied `run_config` dict
(`_run_generate` only ever reads the `include_duplicate_scan` key). -/
inductive PyVal where
  | bool (b : Bool)
  | str (s : String)
  | int (n : Int)
deriving DecidableEq, Repr

/-- `str(v)` for the modelled Python values. -/
def pyStr : PyVal → String
  | .bool true => "True"
  | .bool false => "False"
  | .str s => s
  | .int n => toString n

/-- `s.lower()` restricted to ASCII, matching `str(include_duplicate_scan).lower()`. -/
def pyLower (s : String) : String := s.map Char.toLower

/-- Characters removed by Python's `str.strip()` (ASCII whitespace). -/
def isPySpace (c : Char) : Bool :=
  c = ' ' || c = '\t' || c = '\n' || c = '\r' || c = '\x0b' || c = '\x0c'

/-- `not prd_text or not prd_text.strip()`: the text is empty or
whitespace-only. -/
def isBlank (s : String) : Bool := s.toList.all isPySpace

-- ── Schemas (schemas.py, Pydantic v2 models) ────────────────────────────────

/-- `Literal["clean", "ambiguous"]` — `GenerationRequest.prd_type`. -/
inductive PrdType where
  | clean
  | ambiguous
deriving DecidableEq, Repr

/-- `GenerationConstraints` (schemas.py).  The fields are plain `int`/`bool`
in the Pydantic model: nothing in the schema restricts `temperature` to 0 or
`allow_regeneration` to `false`; the restriction lives only in the field
descriptions shown to the oracle. -/
structure GenerationConstraints where
  temperature : Int
  allow_regeneration : Bool
  include_duplicate_scan : Bool
deriving DecidableEq, Repr

/-- `GenerationArtifacts` (schemas.py). -/
structure GenerationArtifacts where
  existing_suite_index_path : Option String
deriving DecidableEq, Repr

/-- `GenerationRequest` (schemas.py). -/
structure GenerationRequest where
  request_id : String
  mode : String
  prd_source : String
  prd_type : PrdType
  constraints : GenerationConstraints
  artifacts : GenerationArtifacts
deriving DecidableEq, Repr

/-- `Literal["explain", "revise", "both"]` — the classified intent. -/
inductive Intent where
  | explain
  | revise
  | both
deriving DecidableEq, Repr

/-- `RequestedChange` (schemas.py). -/
structure RequestedChange where
  target_id : String
  field : String
  new_value : String
  reason : String
deriving DecidableEq, Repr

/-- `RejectedChange` (schemas.py). -/
structure RejectedChange where
  target_id : String
  field : String
  reason : String
deriving DecidableEq, Repr

/-- `RevisionPolicy` (schemas.py).  Both fields are plain `bool` in the
Pydantic model; "must always be true" appears only in the descriptions shown
to the oracle. -/
structure RevisionPolicy where
  delta_only : Bool
  disallow_unrequested_changes : Bool
deriving DecidableEq, Repr

/-- `RevisionRequest` (schemas.py). -/
structure RevisionRequest where
  request_id : String
  mode : String
  intent : Intent
  target_artifact : String
  requested_changes : List RequestedChange
  explanation_targets : List String
  rejected_changes : List RejectedChange
  policy : RevisionPolicy
deriving DecidableEq, Repr

/-- `ChangeScope` (schemas.py). -/
structure ChangeScope where
  target_id : String
  allowed_fields : List String
deriving DecidableEq, Repr

/-- `ExecutionPlan` (schemas.py). -/
structure ExecutionPlan where
  change_scope : List ChangeScope
  forbidden_changes : List String
  validation_profile : List String
deriving DecidableEq, Repr

-- ── Filesystem state ────────────────────────────────────────────────────────

/-- Association-list lookup on string-keyed files (first match wins; the
`upsert` below keeps keys unique, mirroring one file per path). -/
def flookup {α : Type} (k : String) : List (String × α) → Option α
  | [] => none
  | (k', v) :: rest => if k' = k then some v else flookup k rest

/-- Overwrite-or-create a named file (Python `write_text`: last write wins). -/
def upsert {α : Type} (k : String) (v : α) : List (String × α) → List (String × α)
  | [] => [(k, v)]
  | (k', v') :: rest => if k' = k then (k, v) :: rest else (k', v') :: upsert k v rest

/-- `mkdir(parents=True, exist_ok=True)` on a run directory name. -/
def addDir (d : String) (dirs : List String) : List String :=
  if d ∈ dirs then dirs else dirs ++ [d]

/-- The persisted state under the runs base directory and its parent:
run subdirectories, the artifacts inside each, and the `.current_run`
pointer (stored stripped of its trailing newline). -/
structure FsState where
  runDirs : List String
  prdFiles : List (String × String)
  genFiles : List (String × GenerationRequest)
  revFiles : List (String × RevisionRequest)
  epFiles : List (String × ExecutionPlan)
  currentRun : Option String
deriving DecidableEq, Repr

/-- The empty base directory (fresh `runs/`, no pointer file). -/
def emptyFs : FsState := ⟨[], [], [], [], [], none⟩

-- ── Request-id allocation (the scan-then-increment pattern) ─────────────────

/-- When `cs` starts with `p`, the remaining characters; otherwise `none`. -/
def dropPrefixChars : List Char → List Char → Option (List Char)
  | [], rest => some rest
  | _ :: _, [] => none
  | p :: ps, c :: cs => if p = c then dropPrefixChars ps cs else none

/-- Python `s.isdigit() and int(s)`: a non-empty all-digit string parsed as a
decimal number (leading zeros allowed, `int("007") == 7`). -/
def digitsToNat? (cs : List Char) : Option Nat :=
  if cs ≠ [] ∧ cs.all Char.isDigit then
    some (cs.foldl (fun a c => a * 10 + (c.toNat - 48)) 0)
  else none

/-- `name[len(pfx):]` parsed as a digit sequence when `name` starts with
`pfx` (Python: `startswith`, slice, `.isdigit()`, `int(...)`). -/
def parseSeq (pfx name : String) : Option Nat :=
  match dropPrefixChars pfx.toList name.toList with
  | some rest => digitsToNat? rest
  | none => none

/-- The sequence numbers already used for a given `<PREFIX>-<date>-` prefix
among the discovered identifiers. -/
def seqsOf (pfx : String) (ids : List String) : List Nat :=
  ids.filterMap (parseSeq pfx)

/-- `max(existing) + 1 if existing else 1`. -/
def nextSeq : List Nat → Nat
  | [] => 1
  | s :: rest => (rest.foldl Nat.max s) + 1

/-- Python `f-string` `NNN` formatting: decimal, zero-padded to width 3. -/
def pad3 (n : Nat) : String :=
  let s := toString n
  if s.length < 3 then String.mk (List.replicate (3 - s.length) '0') ++ s else s

/-- The next sequence number for `<pfxName>-<today>-` given the discovered
identifiers (directory names for `RUN`, persisted revision `request_id`
values for `REV`). -/
def allocSeq (pfxName today : String) (ids : List String) : Nat :=
  nextSeq (seqsOf (pfxName ++ "-" ++ today ++ "-") ids)

/-- The freshly allocated identifier `<pfxName>-<today>-<NNN>`. -/
def allocId (pfxName today : String) (ids : List String) : String :=
  pfxName ++ "-" ++ today ++ "-" ++ pad3 (allocSeq pfxName today ids)

-- ── Generation mode (`_run_generate`) ───────────────────────────────────────

/-- The template variables `_run_generate` fills into `generation_prompt`
before invoking the oracle. -/
structure GenPromptInput where
  prd_text : String
  prd_source : String
  today : String
  include_duplicate_scan : String
  existing_suite_index_path : String
deriving DecidableEq, Repr

/-- `_format_suite_path` (conversation_agent.py): quoted path, or the
instruction to use JSON null.  Note Python truthiness: the empty string is
treated like `None`. -/
def formatSuitePath : Option String → String
  | some p =>
      if p = "" then
        "null (JSON null — no path was provided; set this field to null, not the string 'null')"
      else "\"" ++ p ++ "\""
  | none =>
      "null (JSON null — no path was provided; set this field to null, not the string 'null')"

/-- `str(run_config.get("include_duplicate_scan", True)).lower()`. -/
def includeDupScanStr (cfg : List (String × PyVal)) : String :=
  pyLower (pyStr ((flookup "include_duplicate_scan" cfg).getD (PyVal.bool true)))

/-- The run id allocated by scanning existing `RUN-<today>-NNN` directory
names (conversation_agent.py lines 133–142). -/
def allocRunId (today : String) (st : FsState) : String :=
  allocId "RUN" today st.runDirs

/-- The prompt input assembled by `_run_generate` for the generation oracle
call: the PRD text, the canonical runs-relative `prd_source`, today's date,
the duplicate-scan flag and the formatted suite-index path. -/
def genPromptOf (st : FsState) (today prdText : String) (suitePath : Option String)
    (cfg : List (String × PyVal)) : GenPromptInput :=
  ⟨prdText, "runs/" ++ allocRunId today st ++ "/prd.md", today,
    includeDupScanStr cfg, formatSuitePath suitePath⟩

/-- What a generation call produces: the structured error dict for blank
input, the returned `GenerationRequest` dict on success, or a propagated
exception when the oracle call raises. -/
inductive GenResult where
  | errorObj (error : String) (mode : String)
  | ok (out : GenerationRequest)
  | raised
deriving DecidableEq, Repr

/-- Result, filesystem state at the return (or raise) point, and whether
the oracle was invoked. -/
structure GenOutcome where
  result : GenResult
  state : FsState
  oracleCalled : Bool
deriving DecidableEq, Repr

/-- `_run_generate` (conversation_agent.py lines 113–185).  The oracle is an
arbitrary function of the prompt inputs; `none` models the LLM call (or the
schema parse of its reply) raising. -/
def runGenerate (st : FsState) (today prdText : String) (suitePath : Option String)
    (cfg : List (String × PyVal))
    (oracle : GenPromptInput → Option GenerationRequest) : GenOutcome :=
  if isBlank prdText then
    ⟨GenResult.errorObj "PRD input is empty or could not be parsed" "generate", st, false⟩
  else
    let requestId := allocRunId today st
    let prdSource := "runs/" ++ requestId ++ "/prd.md"
    let st1 : FsState :=
      { st with runDirs := addDir requestId st.runDirs,
                prdFiles := upsert requestId prdText st.prdFiles }
    match oracle (genPromptOf st today prdText suitePath cfg) with
    | none => ⟨GenResult.raised, st1, true⟩
    | some r =>
        let output : GenerationRequest :=
          { r with request_id := requestId, prd_source := prdSource }
        ⟨GenResult.ok output,
          { st1 with genFiles := upsert requestId output st1.genFiles,
                     currentRun := some requestId },
          true⟩

-- ── Review mode (`_run_review`) ─────────────────────────────────────────────

/-- The two dict accesses `_run_review` performs on the (otherwise opaque)
`current_artifacts` dict: `current_artifacts.get("request_id")` and — for the
claims' target-existence property only, never read by the code itself — the
`tc_id`/`req_id` identifiers present in the artifact set. -/
structure ArtifactSet where
  request_id : Option String
  ids : List String
deriving DecidableEq, Repr

/-- The three oracle calls of review mode, as arbitrary functions of the
inputs the code feeds them: the intent classification, the revision
extraction (seeded with the Step-1 intent), and the execution-plan call
(given the revision output's `requested_changes`). -/
structure ReviewOracle where
  intentResp : Intent
  revisionResp : Intent → RevisionRequest
  epResp : List RequestedChange → ExecutionPlan

/-- The fixed `forbidden_changes` constant injected after the execution-plan
oracle call (conversation_agent.py lines 302–304). -/
def forbiddenChangesConst : List String :=
  ["req_id", "tc_id", "objective", "type", "surface"]

/-- The fixed `validation_profile` constant injected after the execution-plan
oracle call (conversation_agent.py lines 305–307). -/
def validationProfileConst : List String :=
  ["schema", "cross_ref", "delta", "rationale"]

/-- The post-oracle overwrite of the two constant fields of an
`ExecutionPlan` (conversation_agent.py lines 301–307). -/
def epPost (ep : ExecutionPlan) : ExecutionPlan :=
  { ep with forbidden_changes := forbiddenChangesConst,
            validation_profile := validationProfileConst }

/-- The `REV-<today>-NNN` id allocated by scanning the `request_id` fields of
all persisted `revision_request.json` files (conversation_agent.py lines
229–248). -/
def allocRevId (today : String) (st : FsState) : String :=
  allocId "REV" today (st.revFiles.map (fun p => p.2.request_id))

/-- `_run_review` (conversation_agent.py lines 188–314), from the point where
the artifact set is in hand (explicitly supplied, or auto-loaded from
`.current_run`).  Allocates the `REV` id, runs the two oracle chains, pins
`request_id` on the oracle's revision output, persists it when the original
run id is known (Python truthiness: `None` and `""` both skip), and — for
intent `revise` or `both` — persists the constant-overwritten execution
plan. -/
def runReview (st : FsState) (today : String) (arts : ArtifactSet)
    (oracle : ReviewOracle) : RevisionRequest × FsState :=
  let revRequestId := allocRevId today st
  let resp := oracle.revisionResp oracle.intentResp
  let output : RevisionRequest := { resp with request_id := revRequestId }
  match arts.request_id with
  | none => (output, st)
  | some rid =>
      if rid = "" then (output, st)
      else
        let st1 : FsState :=
          { st with runDirs := addDir rid st.runDirs,
                    revFiles := upsert rid output st.revFiles }
        if output.intent = Intent.revise ∨ output.intent = Intent.both then
          let ep := epPost (oracle.epResp output.requested_changes)
          (output, { st1 with epFiles := upsert rid ep st1.epFiles })
        else (output, st1)

-- ── Spec-side predicates (for stating the claims) ───────────────────────────

/-- The fixed allow-list of revisable fields (§4.4 Step 3 of the spec; also
listed verbatim in `revision_prompt`). -/
def allowedFieldsList : List String :=
  ["priority", "priority_basis", "human_note", "severity", "severity_basis", "reasoning"]

/-- Valid `priority` enum values. -/
def validPriority (v : String) : Bool := v = "P1" || v = "P2" || v = "P3"

/-- Valid `severity` enum values. -/
def validSeverity (v : String) : Bool := v = "high" || v = "medium" || v = "low"

/-- Modelled from the spec: the §4.4 Step-3 admissibility checks for one
proposed change — allowed field, valid enum value for `priority`/`severity`,
and a `target_id` that exists in the current artifact set. -/
def specChangeAdmissible (ids : List String) (c : RequestedChange) : Bool :=
  allowedFieldsList.contains c.field &&
  (!(c.field = "priority") || validPriority c.new_value) &&
  (!(c.field = "severity") || validSeverity c.new_value) &&
  ids.contains c.target_id

/-- Modelled from the spec: the smallest sequence number ≥ 1 not yet used —
the "lowest unused sequence number" the §4.1 contract sentence promises. -/
def lowestUnusedSpec (used : List Nat) : Nat :=
  match (List.range (used.length + 1)).filter (fun k => ¬ (k + 1) ∈ used) with
  | [] => 0
  | k :: _ => k + 1

/-- Modelled from the spec (§4.5): group the validated changes by
`target_id` in order of first appearance, each group collecting its distinct
`field` values in first-appearance order. -/
def specGroupChanges (cs : List RequestedChange) : List ChangeScope :=
  cs.foldl
    (fun acc c =>
      if acc.any (fun s => s.target_id = c.target_id) then
        acc.map (fun s =>
          if s.target_id = c.target_id then
            { s with allowed_fields :=
                if s.allowed_fields.contains c.field then s.allowed_fields
                else s.allowed_fields ++ [c.field] }
          else s)
      else acc ++ [⟨c.target_id, [c.field]⟩])
    []

-- ── Concrete sample inputs (used by witnesses and counterexamples) ──────────

/-- A schema-valid generation oracle reply carrying `temperature = 1` and
`allow_regeneration = true` — values the Pydantic types permit. -/
def grSample : GenerationRequest :=
  ⟨"RUN-00000000-001", "generate", "placeholder", PrdType.ambiguous, ⟨1, true, true⟩, ⟨none⟩⟩

/-- A schema-valid revision oracle reply proposing a change to the forbidden
field `tc_id` on a target absent from the artifact set, with an empty
`rejected_changes` list. -/
def revRespForbidden : RevisionRequest :=
  ⟨"REV-00000000-001", "revise", Intent.revise, "test_plan",
    [⟨"TC-999", "tc_id", "TC-000", "Requested by reviewer."⟩], [], [], ⟨true, true⟩⟩

/-- A schema-valid revision oracle reply with `intent = explain` yet a
non-empty `requested_changes` list and an all-false policy. -/
def revRespExplainBad : RevisionRequest :=
  ⟨"REV-00000000-001", "revise", Intent.explain, "test_plan",
    [⟨"TC-004", "priority", "P1", "Requested by reviewer."⟩], [], [], ⟨false, false⟩⟩

/-- A revision oracle reply with `intent = revise` and zero surviving
requested changes. -/
def revRespReviseEmpty : RevisionRequest :=
  ⟨"REV-00000000-001", "revise", Intent.revise, "test_plan", [], [], [], ⟨true, true⟩⟩

/-- A revision oracle reply with one valid priority change on `TC-004`. -/
def revRespOneChange : RevisionRequest :=
  ⟨"REV-00000000-001", "revise", Intent.revise, "test_plan",
    [⟨"TC-004", "priority", "P1", "login is critical."⟩], [], [], ⟨true, true⟩⟩

/-- An execution-plan oracle reply whose change_scope ignores the grouping
instructions and whose constant fields carry junk. -/
def epRespWild : ExecutionPlan :=
  ⟨[⟨"TC-999", ["objective"]⟩], ["nonsense"], ["nothing"]⟩

/-- An execution-plan oracle reply with an empty change_scope. -/
def epRespEmpty : ExecutionPlan := ⟨[], ["nonsense"], ["nothing"]⟩

/-- An artifact set naming run `RUN-20260101-001` and containing the test
cases `TC-003` and `TC-004`. -/
def artsSample : ArtifactSet := ⟨some "RUN-20260101-001", ["TC-003", "TC-004"]⟩

/-- A review oracle proposing one valid change and a wild execution plan. -/
def sampleOracleRevise : ReviewOracle :=
  ⟨Intent.revise, fun _ => revRespOneChange, fun _ => epRespWild⟩

-- ── Helper lemmas ───────────────────────────────────────────────────────────

theorem flookup_upsert_self {α : Type} (k : String) (v : α) (l : List (String × α)) :
    flookup k (upsert k v l) = some v := by
  induction l with
  | nil => simp [upsert, flookup]
  | cons hd tl ih =>
      obtain ⟨k', v'⟩ := hd
      by_cases h : k' = k
      · simp [upsert, flookup, h]
      · simp [upsert, flookup, h, ih]

theorem flookup_upsert_ne {α : Type} (k k' : String) (v : α) (l : List (String × α))
    (h : k' ≠ k) : flookup k' (upsert k v l) = flookup k' l := by
  induction l with
  | nil =>
      simp only [upsert, flookup]
      rw [if_neg (fun hk => h hk.symm)]
  | cons hd tl ih =>
      obtain ⟨k0, v0⟩ := hd
      by_cases h0 : k0 = k
      · subst h0
        simp only [upsert, if_pos rfl, flookup]
        rw [if_neg (fun hk : k0 = k' => h hk.symm), if_neg (fun hk : k0 = k' => h hk.symm)]
      · simp only [upsert, if_neg h0, flookup]
        by_cases h1 : k0 = k'
        · simp [h1]
        · simp [h1, ih]

theorem mem_addDir_self (d : String) (dirs : List String) : d ∈ addDir d dirs := by
  unfold addDir
  by_cases h : d ∈ dirs
  · simp only [if_pos h]
    exact h
  · simp [h]

theorem le_foldl_max_init (l : List Nat) (a : Nat) : a ≤ l.foldl Nat.max a := by
  induction l generalizing a with
  | nil => simp
  | cons hd tl ih =>
      calc a ≤ Nat.max a hd := Nat.le_max_left a hd
      _ ≤ tl.foldl Nat.max (Nat.max a hd) := ih (Nat.max a hd)
      _ = (hd :: tl).foldl Nat.max a := rfl

theorem mem_le_foldl_max (l : List Nat) (a k : Nat) (h : k ∈ l) : k ≤ l.foldl Nat.max a := by
  induction l generalizing a with
  | nil => cases h
  | cons hd tl ih =>
      rcases List.mem_cons.mp h with h1 | h1
      · subst h1
        calc k ≤ Nat.max a k := Nat.le_max_right a k
        _ ≤ tl.foldl Nat.max (Nat.max a k) := le_foldl_max_init tl (Nat.max a k)
        _ = (k :: tl).foldl Nat.max a := rfl
      · exact ih _ h1

theorem mem_lt_nextSeq (l : List Nat) (k : Nat) (h : k ∈ l) : k < nextSeq l := by
  cases l with
  | nil => cases h
  | cons s rest =>
      unfold nextSeq
      rcases List.mem_cons.mp h with h1 | h1
      · subst h1
        exact Nat.lt_succ_of_le (le_foldl_max_init rest k)
      · exact Nat.lt_succ_of_le (mem_le_foldl_max rest s k h1)

theorem one_le_nextSeq (l : List Nat) : 1 ≤ nextSeq l := by
  cases l with
  | nil => simp [nextSeq]
  | cons s rest => simp [nextSeq]

/-- The returned `RevisionRequest` of a review call is always the Step-2
oracle output with only `request_id` overwritten, in every branch. -/
theorem runReview_fst (st : FsState) (today : String) (arts : ArtifactSet)
    (oracle : ReviewOracle) :
    (runReview st today arts oracle).1 =
      { oracle.revisionResp oracle.intentResp with request_id := allocRevId today st } := by
  unfold runReview
  cases arts.request_id with
  | none => rfl
  | some rid =>
      by_cases h : rid = ""
      · simp [h]
      · simp only [h, if_false]
        split <;> rfl

/-- Successful generation branch, fully evaluated: blank-check passed and the
oracle returned a parsed `GenerationRequest`. -/
theorem runGenerate_ok (st : FsState) (today prd : String) (sp : Option String)
    (cfg : List (String × PyVal)) (f : GenPromptInput → Option GenerationRequest)
    (r : GenerationRequest) (h : isBlank prd = false)
    (hf : f (genPromptOf st today prd sp cfg) = some r) :
    runGenerate st today prd sp cfg f =
      ⟨GenResult.ok { r with request_id := allocRunId today st,
                             prd_source := "runs/" ++ allocRunId today st ++ "/prd.md" },
        { runDirs := addDir (allocRunId today st) st.runDirs,
          prdFiles := upsert (allocRunId today st) prd st.prdFiles,
          genFiles := upsert (allocRunId today st)
            { r with request_id := allocRunId today st,
                     prd_source := "runs/" ++ allocRunId today st ++ "/prd.md" } st.genFiles,
          revFiles := st.revFiles,
          epFiles := st.epFiles,
          currentRun := some (allocRunId today st) }, true⟩ := by
  unfold runGenerate
  rw [hf]
  simp [h]

/-- Failing-oracle generation branch, fully evaluated. -/
theorem runGenerate_raised (st : FsState) (today prd : String) (sp : Option String)
    (cfg : List (String × PyVal)) (f : GenPromptInput → Option GenerationRequest)
    (h : isBlank prd = false) (hf : f (genPromptOf st today prd sp cfg) = none) :
    runGenerate st today prd sp cfg f =
      ⟨GenResult.raised,
        { st with runDirs := addDir (allocRunId today st) st.runDirs,
                  prdFiles := upsert (allocRunId today st) prd st.prdFiles }, true⟩ := by
  unfold runGenerate
  rw [hf]
  simp [h]

/-- The `execution_plan.json` files after a review call, by case on whether
the originating run id is known and which intent the Step-2 oracle output
carries. -/
theorem runReview_epFiles (st : FsState) (today : String) (arts : ArtifactSet)
    (oracle : ReviewOracle) :
    (runReview st today arts oracle).2.epFiles =
      match arts.request_id with
      | none => st.epFiles
      | some rid =>
          if rid = "" then st.epFiles
          else if (oracle.revisionResp oracle.intentResp).intent = Intent.revise ∨
                  (oracle.revisionResp oracle.intentResp).intent = Intent.both then
            upsert rid (epPost (oracle.epResp
              (oracle.revisionResp oracle.intentResp).requested_changes)) st.epFiles
          else st.epFiles := by
  unfold runReview
  cases arts.request_id with
  | none => rfl
  | some rid =>
      by_cases h : rid = ""
      · simp [h]
      · simp only [h, if_false]
        split <;> rfl

-- ── Claim C1 ────────────────────────────────────────────────────────────────

/-- Claim C1 counterexample: an oracle reply proposing a change to the
forbidden field `tc_id` on a target absent from the artifact set is returned
verbatim in `requested_changes` — the component does not move it to
`rejected_changes` (which stays empty), so the claimed authoritative
re-validation is not performed by the component itself. -/
theorem C1_counterexample :
    ((runReview emptyFs "20260101" artsSample
        ⟨Intent.revise, fun _ => revRespForbidden, fun _ => epRespEmpty⟩).1.requested_changes =
      [⟨"TC-999", "tc_id", "TC-000", "Requested by reviewer."⟩]) ∧
    ((runReview emptyFs "20260101" artsSample
        ⟨Intent.revise, fun _ => revRespForbidden, fun _ => epRespEmpty⟩).1.rejected_changes = []) ∧
    specChangeAdmissible artsSample.ids
      ⟨"TC-999", "tc_id", "TC-000", "Requested by reviewer."⟩ = false := by
  decide

/-- Claim C1 (amended): the review component passes the oracle's
`requested_changes` and `rejected_changes` through verbatim (only
`request_id` is overwritten); the allow-list, enum, and target-existence
checks of §4.4 Step 3 are requested of the oracle through the revision
prompt but are not re-validated by the component itself. -/
theorem C1_changes_passthrough (st : FsState) (today : String) (arts : ArtifactSet)
    (oracle : ReviewOracle) :
    (runReview st today arts oracle).1.requested_changes =
      (oracle.revisionResp oracle.intentResp).requested_changes ∧
    (runReview st today arts oracle).1.rejected_changes =
      (oracle.revisionResp oracle.intentResp).rejected_changes := by
  rw [runReview_fst]
  exact ⟨rfl, rfl⟩

-- ── Claim C2 ────────────────────────────────────────────────────────────────

/-- Claim C2 counterexample: an oracle reply with `intent = explain`, a
non-empty `requested_changes` list and both policy booleans `false` is
returned unchanged — the component does not force `requested_changes = []`
on explain and does not force the policy booleans to `true`. -/
theorem C2_counterexample :
    ((runReview emptyFs "20260101" artsSample
        ⟨Intent.explain, fun _ => revRespExplainBad, fun _ => epRespEmpty⟩).1.intent =
      Intent.explain) ∧
    ((runReview emptyFs "20260101" artsSample
        ⟨Intent.explain, fun _ => revRespExplainBad, fun _ => epRespEmpty⟩).1.requested_changes ≠
      []) ∧
    ((runReview emptyFs "20260101" artsSample
        ⟨Intent.explain, fun _ => revRespExplainBad, fun _ => epRespEmpty⟩).1.policy.delta_only =
      false) ∧
    ((runReview emptyFs "20260101" artsSample
        ⟨Intent.explain, fun _ => revRespExplainBad,
          fun _ => epRespEmpty⟩).1.policy.disallow_unrequested_changes = false) := by
  decide

/-- Claim C2 (amended): the component overwrites only `request_id` after the
oracle call; `intent`, `requested_changes`, `explanation_targets` and
`policy` are returned exactly as the oracle produced them — the Step-4
invariants are requested via the revision prompt and the Pydantic field
descriptions, not enforced post-hoc by the component. -/
theorem C2_invariant_fields_passthrough (st : FsState) (today : String) (arts : ArtifactSet)
    (oracle : ReviewOracle) :
    (runReview st today arts oracle).1.intent =
      (oracle.revisionResp oracle.intentResp).intent ∧
    (runReview st today arts oracle).1.requested_changes =
      (oracle.revisionResp oracle.intentResp).requested_changes ∧
    (runReview st today arts oracle).1.explanation_targets =
      (oracle.revisionResp oracle.intentResp).explanation_targets ∧
    (runReview st today arts oracle).1.policy =
      (oracle.revisionResp oracle.intentResp).policy := by
  rw [runReview_fst]
  exact ⟨rfl, rfl, rfl, rfl⟩

-- ── Claim C3 ────────────────────────────────────────────────────────────────

/-- Claim C3 counterexample: with a caller `run_config` explicitly asking
for `temperature = 0` and `allow_regeneration = false`, an oracle reply
carrying `temperature = 1` and `allow_regeneration = true` flows into the
returned GenerationRequest unchanged — the two constraint constants are not
enforced by the component against the oracle's output. -/
theorem C3_counterexample :
    (runGenerate emptyFs "20260101" "Some PRD text" none
        [("temperature", PyVal.int 0), ("allow_regeneration", PyVal.bool false)]
        (fun _ => some grSample)).result =
      GenResult.ok { grSample with request_id := "RUN-20260101-001",
                                   prd_source := "runs/RUN-20260101-001/prd.md" } ∧
    grSample.constraints.temperature = 1 ∧
    grSample.constraints.allow_regeneration = true := by
  decide

/-- Claim C3 (amended): the returned GenerationRequest is the oracle's
output with only `request_id` and `prd_source` overwritten — in particular
`constraints` (including `temperature` and `allow_regeneration`) are
whatever the oracle produced; and the caller's `run_config` influences the
call only through the `include_duplicate_scan` key read into the oracle
prompt, so no `run_config` override can set the constraint fields
directly. -/
theorem C3_constraints_from_oracle (st : FsState) (today prd : String) (sp : Option String)
    (cfg : List (String × PyVal)) (f : GenPromptInput → Option GenerationRequest)
    (r : GenerationRequest) (h : isBlank prd = false)
    (hf : f (genPromptOf st today prd sp cfg) = some r) :
    ((runGenerate st today prd sp cfg f).result =
      GenResult.ok { r with request_id := allocRunId today st,
                            prd_source := "runs/" ++ allocRunId today st ++ "/prd.md" }) ∧
    (∀ cfg' : List (String × PyVal), includeDupScanStr cfg' = includeDupScanStr cfg →
      runGenerate st today prd sp cfg' f = runGenerate st today prd sp cfg f) := by
  constructor
  · rw [runGenerate_ok st today prd sp cfg f r h hf]
  · intro cfg' hc
    unfold runGenerate genPromptOf
    rw [hc]

/-- Claim C3 witness: concrete instantiation of the amended theorem. -/
theorem C3_witness :
    isBlank "Some PRD text" = false ∧
    (runGenerate emptyFs "20260101" "Some PRD text" none [] (fun _ => some grSample)).result =
      GenResult.ok { grSample with request_id := "RUN-20260101-001",
                                   prd_source := "runs/RUN-20260101-001/prd.md" } := by
  constructor
  · decide
  · have h := (C3_constraints_from_oracle emptyFs "20260101" "Some PRD text" none []
      (fun _ => some grSample) grSample (by decide) rfl).1
    have e : allocRunId "20260101" emptyFs = "RUN-20260101-001" := by decide
    rw [e] at h
    exact h

-- ── Claim C4 ────────────────────────────────────────────────────────────────

/-- Claim C4 (confirmed): for every successful generation call, the returned
request's `request_id` and `prd_source` equal the locally computed values —
the `RUN-<today>-NNN` id from the directory scan and the runs-relative path
of the stored document — whatever the oracle produced for those fields, and
the `.current_run` pointer is written and equals the returned
`request_id`. -/
theorem C4_identity_pinning (st : FsState) (today prd : String) (sp : Option String)
    (cfg : List (String × PyVal)) (f : GenPromptInput → Option GenerationRequest)
    (r : GenerationRequest) (h : isBlank prd = false)
    (hf : f (genPromptOf st today prd sp cfg) = some r) :
    ∃ out, (runGenerate st today prd sp cfg f).result = GenResult.ok out ∧
      out.request_id = "RUN-" ++ today ++ "-" ++ pad3 (allocSeq "RUN" today st.runDirs) ∧
      out.prd_source = "runs/" ++ out.request_id ++ "/prd.md" ∧
      (runGenerate st today prd sp cfg f).state.currentRun = some out.request_id := by
  rw [runGenerate_ok st today prd sp cfg f r h hf]
  exact ⟨_, rfl, rfl, rfl, rfl⟩

/-- Claim C4 witness: concrete instantiation of the pinning theorem. -/
theorem C4_witness :
    ∃ out, (runGenerate emptyFs "20260101" "Some PRD text" none []
        (fun _ => some grSample)).result = GenResult.ok out ∧
      out.request_id = "RUN-" ++ "20260101" ++ "-" ++
        pad3 (allocSeq "RUN" "20260101" emptyFs.runDirs) ∧
      out.prd_source = "runs/" ++ out.request_id ++ "/prd.md" ∧
      (runGenerate emptyFs "20260101" "Some PRD text" none []
        (fun _ => some grSample)).state.currentRun = some out.request_id :=
  C4_identity_pinning emptyFs "20260101" "Some PRD text" none []
    (fun _ => some grSample) grSample (by decide) rfl

-- ── Claim C5 ────────────────────────────────────────────────────────────────

/-- Claim C5 (confirmed): every `execution_plan.json` that a review call
persists (i.e. whose stored content differs from what was there before the
call) carries exactly the fixed `forbidden_changes` list
`["req_id","tc_id","objective","type","surface"]` and the fixed
`validation_profile` list `["schema","cross_ref","delta","rationale"]`, for
every possible oracle output — the oracle's own values for these two fields
are discarded by the post-call overwrite. -/
theorem C5_plan_constants (st : FsState) (today : String) (arts : ArtifactSet)
    (oracle : ReviewOracle) (rid : String)
    (h : flookup rid (runReview st today arts oracle).2.epFiles ≠
      flookup rid st.epFiles) :
    ∃ ep, flookup rid (runReview st today arts oracle).2.epFiles = some ep ∧
      ep.forbidden_changes = forbiddenChangesConst ∧
      ep.validation_profile = validationProfileConst := by
  rw [runReview_epFiles] at h ⊢
  revert h
  cases arts.request_id with
  | none => intro h; exact absurd rfl h
  | some rid0 =>
      by_cases h0 : rid0 = ""
      · simp only [h0, if_pos rfl]
        intro h
        exact absurd rfl h
      · simp only [h0, if_false]
        by_cases h1 : (oracle.revisionResp oracle.intentResp).intent = Intent.revise ∨
            (oracle.revisionResp oracle.intentResp).intent = Intent.both
        · simp only [h1, if_true]
          by_cases h2 : rid = rid0
          · subst h2
            intro _
            exact ⟨_, flookup_upsert_self rid _ st.epFiles, rfl, rfl⟩
          · rw [flookup_upsert_ne rid0 rid _ st.epFiles h2]
            intro h
            exact absurd rfl h
        · simp only [h1, if_false]
          intro h
          exact absurd rfl h

/-- Claim C5 witness: a concrete review call that persists a plan, with the
constants visible in the stored file. -/
theorem C5_witness :
    (flookup "RUN-20260101-001"
        (runReview emptyFs "20260101" artsSample sampleOracleRevise).2.epFiles ≠
      flookup "RUN-20260101-001" emptyFs.epFiles) ∧
    (∃ ep, flookup "RUN-20260101-001"
        (runReview emptyFs "20260101" artsSample sampleOracleRevise).2.epFiles = some ep ∧
      ep.forbidden_changes = forbiddenChangesConst ∧
      ep.validation_profile = validationProfileConst) :=
  ⟨by decide,
    C5_plan_constants emptyFs "20260101" artsSample sampleOracleRevise
      "RUN-20260101-001" (by decide)⟩

-- ── Claim C6 ────────────────────────────────────────────────────────────────

/-- Claim C6 counterexample: with the single pre-existing identifier
`RUN-20260101-002`, the used sequence list is `[2]`, whose lowest unused
number ≥ 1 is 1, but the allocator returns sequence 3
(`RUN-20260101-003`) — the scan takes `max + 1`, not the lowest unused
number, so the claim as stated fails whenever the used set has a gap. -/
theorem C6_counterexample :
    seqsOf "RUN-20260101-" ["RUN-20260101-002"] = [2] ∧
    lowestUnusedSpec [2] = 1 ∧
    allocSeq "RUN" "20260101" ["RUN-20260101-002"] = 3 ∧
    allocId "RUN" "20260101" ["RUN-20260101-002"] ≠
      "RUN-20260101-" ++ pad3 (lowestUnusedSpec [2]) := by
  decide

/-- Claim C6 (amended): for every set of pre-existing identifiers and either
namespace prefix, the allocator returns one more than the maximum used
sequence number for that date (1 when none exist) — always an unused number
≥ 1, strictly greater than every used one, though not necessarily the
lowest unused when the used set has gaps — formatted as
`<PREFIX>-<YYYYMMDD>-<NNN>` with `NNN` zero-padded to 3 digits. -/
theorem C6_alloc_max_succ (p today : String) (ids : List String) :
    allocId p today ids = p ++ "-" ++ today ++ "-" ++ pad3 (allocSeq p today ids) ∧
    1 ≤ allocSeq p today ids ∧
    ∀ k ∈ seqsOf (p ++ "-" ++ today ++ "-") ids, k < allocSeq p today ids := by
  refine ⟨rfl, one_le_nextSeq _, ?_⟩
  intro k hk
  exact mem_lt_nextSeq _ k hk

/-- Claim C6 witness: concrete instantiation of the amended allocator
theorem for the `REV` namespace. -/
theorem C6_witness :
    allocId "REV" "20260101" ["REV-20260101-004"] = "REV-20260101-005" ∧
    4 < allocSeq "REV" "20260101" ["REV-20260101-004"] := by
  have h := C6_alloc_max_succ "REV" "20260101" ["REV-20260101-004"]
  exact ⟨by decide, h.2.2 4 (by decide)⟩

-- ── Claim C7 ────────────────────────────────────────────────────────────────

/-- Claim C7 counterexample: a review call with `intent = revise` whose
oracle output carries zero surviving requested changes still writes the
`execution_plan` artifact, and the written plan's `change_scope` is empty —
so the artifact does not exist "exactly when at least one change survived
validation", and its `change_scope` can have length 0. -/
theorem C7_counterexample :
    ((runReview emptyFs "20260101" artsSample
        ⟨Intent.revise, fun _ => revRespReviseEmpty, fun _ => epRespEmpty⟩).1.requested_changes =
      []) ∧
    ((runReview emptyFs "20260101" artsSample
        ⟨Intent.revise, fun _ => revRespReviseEmpty, fun _ => epRespEmpty⟩).1.intent =
      Intent.revise) ∧
    (flookup "RUN-20260101-001"
        (runReview emptyFs "20260101" artsSample
          ⟨Intent.revise, fun _ => revRespReviseEmpty, fun _ => epRespEmpty⟩).2.epFiles =
      some ⟨[], forbiddenChangesConst, validationProfileConst⟩) := by
  decide

/-- Claim C7 (amended): the `execution_plan` artifact is written exactly
when the Step-2 oracle output's intent is `revise` or `both` and the
artifact set carries a non-empty original run id — regardless of whether any
requested change survived (its `change_scope` is then whatever the
execution-plan oracle returned, possibly empty) — and it is never written
when the intent is `explain` or the run id is unknown. -/
theorem C7_plan_write_condition (st : FsState) (today : String) (arts : ArtifactSet)
    (oracle : ReviewOracle) :
    ((oracle.revisionResp oracle.intentResp).intent = Intent.explain →
        (runReview st today arts oracle).2.epFiles = st.epFiles) ∧
    (arts.request_id = none →
        (runReview st today arts oracle).2.epFiles = st.epFiles) ∧
    (arts.request_id = some "" →
        (runReview st today arts oracle).2.epFiles = st.epFiles) ∧
    (∀ rid, arts.request_id = some rid → rid ≠ "" →
        ((oracle.revisionResp oracle.intentResp).intent = Intent.revise ∨
          (oracle.revisionResp oracle.intentResp).intent = Intent.both) →
        (runReview st today arts oracle).2.epFiles =
          upsert rid (epPost (oracle.epResp
            (oracle.revisionResp oracle.intentResp).requested_changes)) st.epFiles) := by
  rw [runReview_epFiles]
  refine ⟨?_, ?_, ?_, ?_⟩
  · intro hint
    cases harts : arts.request_id with
    | none => rfl
    | some rid0 =>
        by_cases h0 : rid0 = ""
        · simp [h0]
        · have : ¬ ((oracle.revisionResp oracle.intentResp).intent = Intent.revise ∨
              (oracle.revisionResp oracle.intentResp).intent = Intent.both) := by
            rw [hint]
            simp
          simp [h0, this]
  · intro harts
    rw [harts]
  · intro harts
    rw [harts]
    simp
  · intro rid harts hne hint
    rw [harts]
    simp [hne, hint]

/-- Claim C7 witness: concrete instantiations — the plan is written for a
revise-intent call with a known run id, and nothing is written when the
artifact set has no run id. -/
theorem C7_witness :
    ((runReview emptyFs "20260101" artsSample sampleOracleRevise).2.epFiles =
      upsert "RUN-20260101-001" (epPost epRespWild) emptyFs.epFiles) ∧
    ((runReview emptyFs "20260101" ⟨none, []⟩ sampleOracleRevise).2.epFiles =
      emptyFs.epFiles) := by
  constructor
  · exact (C7_plan_write_condition emptyFs "20260101" artsSample
      sampleOracleRevise).2.2.2 "RUN-20260101-001" rfl (by decide) (Or.inl rfl)
  · exact (C7_plan_write_condition emptyFs "20260101" ⟨none, []⟩
      sampleOracleRevise).2.1 rfl

-- ── Claim C8 ────────────────────────────────────────────────────────────────

/-- Claim C8 counterexample: for the single validated change
`(TC-004, priority)`, the spec's deterministic grouping yields one
`ChangeScope` for `TC-004` with `allowed_fields = [priority]`, but the
persisted plan's `change_scope` is whatever the execution-plan oracle
returned — here a scope for the unrelated `TC-999` touching `objective` —
so `change_scope` is not derived deterministically from the
`requested_changes` list alone. -/
theorem C8_counterexample :
    (flookup "RUN-20260101-001"
        (runReview emptyFs "20260101" artsSample sampleOracleRevise).2.epFiles =
      some ⟨[⟨"TC-999", ["objective"]⟩], forbiddenChangesConst, validationProfileConst⟩) ∧
    (specGroupChanges
        (runReview emptyFs "20260101" artsSample sampleOracleRevise).1.requested_changes =
      [⟨"TC-004", ["priority"]⟩]) ∧
    ([⟨"TC-999", ["objective"]⟩] : List ChangeScope) ≠ [⟨"TC-004", ["priority"]⟩] := by
  decide

/-- Claim C8 (amended): the persisted plan's `change_scope` equals the
execution-plan oracle's `change_scope` output verbatim — the grouping by
`target_id` with first-appearance order and field deduplication is
instructed in the execution-plan prompt but is not computed by the
component, which overwrites only `forbidden_changes` and
`validation_profile`. -/
theorem C8_scope_from_oracle (st : FsState) (today : String) (arts : ArtifactSet)
    (oracle : ReviewOracle) (rid : String)
    (h1 : arts.request_id = some rid) (h2 : rid ≠ "")
    (h3 : (oracle.revisionResp oracle.intentResp).intent = Intent.revise ∨
          (oracle.revisionResp oracle.intentResp).intent = Intent.both) :
    flookup rid (runReview st today arts oracle).2.epFiles =
      some (epPost (oracle.epResp
        (oracle.revisionResp oracle.intentResp).requested_changes)) ∧
    (epPost (oracle.epResp
        (oracle.revisionResp oracle.intentResp).requested_changes)).change_scope =
      (oracle.epResp (oracle.revisionResp oracle.intentResp).requested_changes).change_scope := by
  rw [runReview_epFiles, h1]
  simp only [h2, if_false, h3, if_true]
  exact ⟨flookup_upsert_self rid _ st.epFiles, rfl⟩

/-- Claim C8 witness: concrete instantiation of the pass-through theorem. -/
theorem C8_witness :
    flookup "RUN-20260101-001"
        (runReview emptyFs "20260101" artsSample sampleOracleRevise).2.epFiles =
      some (epPost epRespWild) ∧
    (epPost epRespWild).change_scope = epRespWild.change_scope :=
  C8_scope_from_oracle emptyFs "20260101" artsSample sampleOracleRevise
    "RUN-20260101-001" rfl (by decide) (Or.inl rfl)

-- ── Claim C9 ────────────────────────────────────────────────────────────────

/-- Claim C9 (confirmed): for every generation call whose document text is
empty or whitespace-only, the call returns the structured object with the
error message and `mode = "generate"` without raising, the filesystem state
is left exactly as it was (no run directory, no files, `.current_run`
untouched), and the oracle is never invoked. -/
theorem C9_blank_input_reported (st : FsState) (today prd : String) (sp : Option String)
    (cfg : List (String × PyVal)) (f : GenPromptInput → Option GenerationRequest)
    (h : isBlank prd = true) :
    runGenerate st today prd sp cfg f =
      ⟨GenResult.errorObj "PRD input is empty or could not be parsed" "generate",
        st, false⟩ := by
  unfold runGenerate
  simp [h]

/-- Claim C9 witness: the whitespace-only document.  The returned state is
the untouched input state and the oracle-called flag is false. -/
theorem C9_witness :
    isBlank " \t\n" = true ∧
    runGenerate emptyFs "20260101" " \t\n" none [] (fun _ => some grSample) =
      ⟨GenResult.errorObj "PRD input is empty or could not be parsed" "generate",
        emptyFs, false⟩ :=
  ⟨by decide,
    C9_blank_input_reported emptyFs "20260101" " \t\n" none []
      (fun _ => some grSample) (by decide)⟩

-- ── Claim C10 ───────────────────────────────────────────────────────────────

/-- Claim C10 (confirmed): for every generation call with non-empty input
whose oracle call fails, at the failure point the run directory exists and
the stored source document (`prd.md`) holds the input text, while
`generation_request.json` files and the `.current_run` pointer are exactly
as before the call — so the active-run pointer cannot come to refer to a
run lacking its GenerationRequest artifact as a result of that call. -/
theorem C10_oracle_failure_partial_state (st : FsState) (today prd : String)
    (sp : Option String) (cfg : List (String × PyVal))
    (f : GenPromptInput → Option GenerationRequest)
    (h : isBlank prd = false) (hf : f (genPromptOf st today prd sp cfg) = none) :
    (runGenerate st today prd sp cfg f).result = GenResult.raised ∧
    allocRunId today st ∈ (runGenerate st today prd sp cfg f).state.runDirs ∧
    flookup (allocRunId today st) (runGenerate st today prd sp cfg f).state.prdFiles =
      some prd ∧
    (runGenerate st today prd sp cfg f).state.genFiles = st.genFiles ∧
    (runGenerate st today prd sp cfg f).state.currentRun = st.currentRun := by
  rw [runGenerate_raised st today prd sp cfg f h hf]
  exact ⟨rfl, mem_addDir_self _ st.runDirs,
    flookup_upsert_self _ prd st.prdFiles, rfl, rfl⟩

/-- Claim C10 witness: a concrete failing-oracle call on a fresh base
directory. -/
theorem C10_witness :
    isBlank "Some PRD text" = false ∧
    ((runGenerate emptyFs "20260101" "Some PRD text" none []
        (fun _ => none)).result = GenResult.raised ∧
      allocRunId "20260101" emptyFs ∈
        (runGenerate emptyFs "20260101" "Some PRD text" none []
          (fun _ => none)).state.runDirs ∧
      flookup (allocRunId "20260101" emptyFs)
          (runGenerate emptyFs "20260101" "Some PRD text" none []
            (fun _ => none)).state.prdFiles = some "Some PRD text" ∧
      (runGenerate emptyFs "20260101" "Some PRD text" none []
        (fun _ => none)).state.genFiles = emptyFs.genFiles ∧
      (runGenerate emptyFs "20260101" "Some PRD text" none []
        (fun _ => none)).state.currentRun = emptyFs.currentRun) :=
  ⟨by decide,
    C10_oracle_failure_partial_state emptyFs "20260101" "Some PRD text" none []
      (fun _ => none) (by decide) rfl⟩

end ConvAgent
